import Mathlib

/-!
Verification development for the Suno music-generation node
(`src/suno/generate_music.py`).  The Python code is shallowly embedded:
JSON/Python values become the inductive `PyVal`, fallible Python code
returns `Except PyErr`, the network and the static-file store are passed
in as explicit oracles, and the node's output slots
(`parameter_output_values`) become the record `Outputs`.
-/

namespace Suno

/-- Python/JSON values as they occur in this node: `None`, booleans,
integers, floats (modelled as rationals), strings, lists and dicts
(association lists, insertion-ordered as in Python). -/
inductive PyVal where
  | none
  | bool (b : Bool)
  | int (n : Int)
  | rat (q : Rat)
  | str (s : String)
  | list (xs : List PyVal)
  | dict (kvs : List (String × PyVal))

/-- Python truthiness (`bool(v)`): `None`, `False`, `0`, `0.0`, `""`,
`[]` and `{}` are falsy, everything else truthy. -/
def PyVal.truthy : PyVal → Bool
  | .none => false
  | .bool b => b
  | .int n => n != 0
  | .rat q => q != 0
  | .str s => s != ""
  | .list xs => !xs.isEmpty
  | .dict kvs => !kvs.isEmpty

mutual
/-- Python `==` as used by this code.  Numeric values compare across
`bool`/`int`/`float` (Python treats `True == 1`, `1 == 1.0`), lists
compare elementwise; dicts compare entrywise (Python dict equality is
key-set based, but no dict is ever compared by this code). -/
def pyEqb : PyVal → PyVal → Bool
  | .none, .none => true
  | .bool x, .bool y => x == y
  | .bool x, .int n => (if x then (1 : Int) else 0) == n
  | .int n, .bool x => n == (if x then (1 : Int) else 0)
  | .bool x, .rat q => ((if x then (1 : Int) else 0) : Rat) == q
  | .rat q, .bool x => q == ((if x then (1 : Int) else 0) : Rat)
  | .int n, .rat q => (n : Rat) == q
  | .rat q, .int n => q == (n : Rat)
  | .int a, .int b => a == b
  | .rat a, .rat b => a == b
  | .str a, .str b => a == b
  | .list xs, .list ys => pyEqbList xs ys
  | .dict xs, .dict ys => pyEqbPairs xs ys
  | _, _ => false

/-- Elementwise Python `==` on lists. -/
def pyEqbList : List PyVal → List PyVal → Bool
  | [], [] => true
  | x :: xs, y :: ys => pyEqb x y && pyEqbList xs ys
  | _, _ => false

/-- Entrywise Python `==` on dict association lists. -/
def pyEqbPairs : List (String × PyVal) → List (String × PyVal) → Bool
  | [], [] => true
  | (k1, v1) :: xs, (k2, v2) :: ys => k1 == k2 && pyEqb v1 v2 && pyEqbPairs xs ys
  | _, _ => false
end

/-- Python type names, as they appear in exception messages. -/
def pyTypeName : PyVal → String
  | .none => "NoneType"
  | .bool _ => "bool"
  | .int _ => "int"
  | .rat _ => "float"
  | .str _ => "str"
  | .list _ => "list"
  | .dict _ => "dict"

/-- Decimal rendering of a rational with two fractional digits at most
(every float stored in a payload by this node is a `round(_, 2)` result),
mirroring Python float `str`. -/
def ratStr (q : Rat) : String :=
  let sign := if q < 0 then "-" else ""
  let a := |q|
  let scaled : Int := (a * 100).floor
  let ip := scaled / 100
  let fr := scaled % 100
  if fr = 0 then sign ++ toString ip ++ ".0"
  else if fr % 10 = 0 then sign ++ toString ip ++ "." ++ toString (fr / 10)
  else sign ++ toString ip ++ "." ++ (if fr < 10 then "0" else "") ++ toString fr

mutual
/-- Python `repr` of a value (used for elements inside containers). -/
def pyRepr : PyVal → String
  | .none => "None"
  | .bool true => "True"
  | .bool false => "False"
  | .int n => toString n
  | .rat q => ratStr q
  | .str s => "\x27" ++ s ++ "\x27"
  | .list xs => "[" ++ pyReprList xs ++ "]"
  | .dict kvs => "\x7b" ++ pyReprPairs kvs ++ "\x7d"

/-- Comma-separated reprs of list elements. -/
def pyReprList : List PyVal → String
  | [] => ""
  | [x] => pyRepr x
  | x :: y :: xs => pyRepr x ++ ", " ++ pyReprList (y :: xs)

/-- Comma-separated reprs of dict entries. -/
def pyReprPairs : List (String × PyVal) → String
  | [] => ""
  | [(k, v)] => "\x27" ++ k ++ "\x27: " ++ pyRepr v
  | (k, v) :: y :: xs => "\x27" ++ k ++ "\x27: " ++ pyRepr v ++ ", " ++ pyReprPairs (y :: xs)
end

/-- Python `str(v)` as interpolated by f-strings: like `repr` except that
strings render without quotes. -/
def pyStr : PyVal → String
  | .str s => s
  | v => pyRepr v

/-- Python `d.get(k)` on a dict: the value, or `None` when absent. -/
def dGet (kvs : List (String × PyVal)) (k : String) : PyVal :=
  match kvs with
  | [] => .none
  | (k0, v) :: rest => if k0 = k then v else dGet rest k

/-- Python `d.get(k, default)` on a dict. -/
def dGetD (kvs : List (String × PyVal)) (k : String) (d : PyVal) : PyVal :=
  match kvs with
  | [] => d
  | (k0, v) :: rest => if k0 = k then v else dGetD rest k d

/-- Characters stripped by Python `str.strip()` (ASCII whitespace). -/
def isPySpace (c : Char) : Bool :=
  c = ' ' || c = '\t' || c = '\n' || c = '\r' || c = Char.ofNat 11 || c = Char.ofNat 12

/-- Python `s.strip()`. -/
def pyStrip (s : String) : String :=
  String.mk (((s.data.dropWhile isPySpace).reverse.dropWhile isPySpace).reverse)

/-- Python `x or ""` applied to an optional string parameter value. -/
def pyOrEmpty (o : Option String) : String :=
  match o with
  | Option.none => ""
  | some s => s

/-- Python `a or b` on values (`b` when `a` is falsy). -/
def pyOr (a b : PyVal) : PyVal := if a.truthy then a else b

/-- Python exceptions raised (and caught) by this node, carrying the
text `str(e)` would produce. -/
inductive PyErr where
  | runtimeError (msg : String)
  | valueError (msg : String)
  | typeError (msg : String)
  | attributeError (msg : String)
deriving DecidableEq

/-- Python `str(e)` for the exceptions above. -/
def pyErrMsg : PyErr → String
  | .runtimeError m => m
  | .valueError m => m
  | .typeError m => m
  | .attributeError m => m

/-- Python `len(v)`: defined on strings, lists and dicts, a `TypeError`
otherwise (with CPython's message). -/
def pyLen (v : PyVal) : Except PyErr Nat :=
  match v with
  | .str s => .ok s.length
  | .list xs => .ok xs.length
  | .dict kvs => .ok kvs.length
  | w => .error (.typeError ("object of type \x27" ++ pyTypeName w ++ "\x27 has no len()"))

/-- Python `v[:n]` on strings and lists (only reached after `len`
succeeded, so the remaining cases are unreachable in the model and
return the value unchanged). -/
def pySliceTo (v : PyVal) (n : Nat) : PyVal :=
  match v with
  | .str s => .str (String.mk (s.data.take n))
  | .list xs => .list (xs.take n)
  | w => w

/-- AttributeError raised by `v.get(...)` when `v` is not a dict. -/
def noGetAttrErr (v : PyVal) : PyErr :=
  .attributeError ("\x27" ++ pyTypeName v ++ "\x27 object has no attribute \x27get\x27")

/-! ## Class constants (`SunoGenerateMusic`) -/

/-- Polling interval in seconds. -/
def POLLING_INTERVAL : Nat := 10

/-- Maximum number of polling attempts. -/
def MAX_POLLING_ATTEMPTS : Nat := 36

/-- HTTP request timeout in seconds. -/
def DEFAULT_TIMEOUT : Nat := 30

/-- Per-model prompt length limits in custom mode. -/
def PROMPT_LIMITS_CUSTOM : List (String × Nat) :=
  [("V3_5", 3000), ("V4", 3000), ("V4_5", 5000), ("V4_5PLUS", 5000), ("V5", 5000)]

/-- Prompt length limit in simple mode. -/
def PROMPT_LIMIT_SIMPLE : Nat := 500

/-- Per-model style length limits. -/
def STYLE_LIMITS : List (String × Nat) :=
  [("V3_5", 200), ("V4", 200), ("V4_5", 1000), ("V4_5PLUS", 1000), ("V5", 1000)]

/-- Title length limit. -/
def TITLE_LIMIT : Nat := 80

/-- Python `d.get(k, default)` on a string-to-Nat dict constant. -/
def natGetD (l : List (String × Nat)) (k : String) (d : Nat) : Nat :=
  match l with
  | [] => d
  | (k0, v) :: rest => if k0 = k then v else natGetD rest k d

/-! ## Node parameter state

The node's input parameters, typed as declared in `__init__`; each value
may also be unset/`None`, which `get_parameter_value` returns as absent. -/

/-- Input parameter values at the time of a run. -/
structure NodeParams where
  custom_mode : Bool
  model : String
  prompt : Option String
  style : Option String
  title : Option String
  instrumental : Bool
  vocal_gender : Option String
  negative_tags : Option String
  style_weight : Option Rat
  weirdness_constraint : Option Rat
  audio_weight : Option Rat

/-! ## Validation (`validate_before_node_run`) -/

/-- Message of the custom-mode prompt length error. -/
def promptLimitMsgCustom (name model : String) (limit curr : Nat) : String :=
  name ++ ": Prompt exceeds " ++ toString limit ++ " character limit for " ++ model ++
    " (current: " ++ toString curr ++ " characters)"

/-- Message of the custom-mode style length error. -/
def styleLimitMsg (name model : String) (limit curr : Nat) : String :=
  name ++ ": Style exceeds " ++ toString limit ++ " character limit for " ++ model ++
    " (current: " ++ toString curr ++ " characters)"

/-- Message of the title length error. -/
def titleLimitMsg (name : String) (curr : Nat) : String :=
  name ++ ": Title exceeds " ++ toString TITLE_LIMIT ++ " character limit (current: " ++
    toString curr ++ " characters)"

/-- Message of the simple-mode prompt length error. -/
def promptLimitMsgSimple (name : String) (curr : Nat) : String :=
  name ++ ": Prompt exceeds " ++ toString PROMPT_LIMIT_SIMPLE ++
    " character limit in Simple Mode (current: " ++ toString curr ++ " characters)"

/-- Pre-run validation: collects the message of every violated rule, in
source order, exactly as `validate_before_node_run` appends its
`ValueError`s (the Python function returns `None` for an empty list; the
list itself carries the same information). -/
def validate_before_node_run (name : String) (p : NodeParams) : List String :=
  if p.custom_mode then
    let style := pyOrEmpty p.style
    let title := pyOrEmpty p.title
    let prompt := pyOrEmpty p.prompt
    (if pyStrip style = "" then [name ++ ": Style is required in Custom Mode"] else []) ++
    (if pyStrip title = "" then [name ++ ": Title is required in Custom Mode"] else []) ++
    (if !p.instrumental && pyStrip prompt = "" then
      [name ++ ": Prompt/Lyrics required in Custom Mode when not instrumental"] else []) ++
    (if prompt ≠ "" ∧ prompt.length > natGetD PROMPT_LIMITS_CUSTOM p.model 3000 then
      [promptLimitMsgCustom name p.model (natGetD PROMPT_LIMITS_CUSTOM p.model 3000) prompt.length]
     else []) ++
    (if style ≠ "" ∧ style.length > natGetD STYLE_LIMITS p.model 200 then
      [styleLimitMsg name p.model (natGetD STYLE_LIMITS p.model 200) style.length] else []) ++
    (if title ≠ "" ∧ title.length > TITLE_LIMIT then [titleLimitMsg name title.length] else [])
  else
    let prompt := pyOrEmpty p.prompt
    (if pyStrip prompt = "" then [name ++ ": Prompt is required in Simple Mode"] else []) ++
    (if prompt.length > PROMPT_LIMIT_SIMPLE then [promptLimitMsgSimple name prompt.length] else [])

/-! ## Request builder (`_build_payload`) -/

/-- Banker's rounding to an integer (Python `round` on exact values). -/
def halfEvenRound (q : Rat) : Int :=
  let f := q.floor
  let frac := q - (f : Rat)
  if frac < 1/2 then f
  else if 1/2 < frac then f + 1
  else if f % 2 = 0 then f else f + 1

/-- Python `round(q, 2)` on the rational model of a float. -/
def pyRound2 (q : Rat) : Rat := (halfEvenRound (q * 100) : Rat) / 100

/-- First-match lookup in an insertion-ordered payload (Python dict keys
built by this code are distinct, so this is Python `payload.get(k)`
as an `Option`). -/
def pyLookup (l : List (String × PyVal)) (k : String) : Option PyVal :=
  match l with
  | [] => Option.none
  | (k0, v) :: rest => if k0 = k then some v else pyLookup rest k

/-- Whether a payload contains a key. -/
def hasKey (l : List (String × PyVal)) (k : String) : Bool :=
  (pyLookup l k).isSome

/-- The unconditional payload entries. -/
def baseBlock (p : NodeParams) : List (String × PyVal) :=
  [("customMode", .bool p.custom_mode),
   ("instrumental", .bool p.instrumental),
   ("model", .str p.model),
   ("callBackUrl", .str "https://example.com/callback")]

/-- `prompt` entry, when the stripped prompt is non-empty. -/
def promptBlock (p : NodeParams) : List (String × PyVal) :=
  let prompt := pyOrEmpty p.prompt
  if pyStrip prompt ≠ "" then [("prompt", .str (pyStrip prompt))] else []

/-- `style`/`title` entries, in custom mode, when non-blank. -/
def customBlock (p : NodeParams) : List (String × PyVal) :=
  if p.custom_mode then
    let style := pyOrEmpty p.style
    let title := pyOrEmpty p.title
    (if pyStrip style ≠ "" then [("style", .str (pyStrip style))] else []) ++
    (if pyStrip title ≠ "" then [("title", .str (pyStrip title))] else [])
  else []

/-- `negativeTags` entry, when non-blank. -/
def negTagsBlock (p : NodeParams) : List (String × PyVal) :=
  let nt := pyOrEmpty p.negative_tags
  if pyStrip nt ≠ "" then [("negativeTags", .str (pyStrip nt))] else []

/-- `vocalGender` entry (`if vocal_gender and vocal_gender != "auto"`). -/
def vocalBlock (p : NodeParams) : List (String × PyVal) :=
  match p.vocal_gender with
  | Option.none => []
  | some g => if g ≠ "" ∧ g ≠ "auto" then [("vocalGender", .str g)] else []

/-- One weight entry (`if w and w != 0.65: payload[key] = round(w, 2)`);
note that Python's truthiness test drops the value `0.0` as well. -/
def weightBlock (key : String) (w : Option Rat) : List (String × PyVal) :=
  match w with
  | Option.none => []
  | some q => if q ≠ 0 ∧ q ≠ 65/100 then [(key, .rat (pyRound2 q))] else []

/-- The full request payload, in the insertion order of `_build_payload`. -/
def build_payload (p : NodeParams) : List (String × PyVal) :=
  baseBlock p ++ promptBlock p ++ customBlock p ++ negTagsBlock p ++ vocalBlock p ++
    weightBlock "styleWeight" p.style_weight ++
    weightBlock "weirdnessConstraint" p.weirdness_constraint ++
    weightBlock "audioWeight" p.audio_weight

/-! ## Job submitter (`_submit_task`) -/

/-- Outcome of one HTTP request, as the surrounding `try` observes it:
a `requests` timeout, some other transport-level `RequestException`
(carrying `str(e)`), an HTTP error status raised by `raise_for_status`
(also a `RequestException`), or a decoded JSON body. -/
inductive HttpResult where
  | timeout
  | transportError (msg : String)
  | httpStatusError (msg : String)
  | ok (body : PyVal)

/-- `_submit_task`: returns the whole response envelope on success,
a `RuntimeError` otherwise, with the messages of lines 543-552. -/
def submit_task (resp : HttpResult) : Except PyErr PyVal :=
  match resp with
  | .timeout => .error (.runtimeError ("Request timed out after " ++ toString DEFAULT_TIMEOUT ++ " seconds"))
  | .transportError m => .error (.runtimeError ("Request failed: " ++ m))
  | .httpStatusError m => .error (.runtimeError ("Request failed: " ++ m))
  | .ok body =>
    match body with
    | .dict kvs =>
      if pyEqb (dGet kvs "code") (.int 200) then .ok body
      else .error (.runtimeError ("API returned error: " ++ pyStr (dGetD kvs "msg" (.str "Unknown error"))))
    | v => .error (noGetAttrErr v)

/-- Task-id extraction from a successful submission envelope
(`_process` lines 750-753): `submission.get("data", {}).get("taskId")`,
a `RuntimeError` when the result is falsy. -/
def taskIdOf (submission : PyVal) : Except PyErr PyVal :=
  match submission with
  | .dict kvs =>
    match dGetD kvs "data" (.dict []) with
    | .dict dkvs =>
      let tid := dGet dkvs "taskId"
      if tid.truthy then .ok tid
      else .error (.runtimeError "No task ID returned from API")
    | v => .error (noGetAttrErr v)
  | v => .error (noGetAttrErr v)

/-! ## Poll loop (`_poll_for_completion`) -/

/-- What the polling HTTP query of one attempt yields: either some
`RequestException` (transport failure, HTTP error status, undecodable
body — all swallowed by the loop's `except` clause), or a decoded JSON
body. -/
inductive PollResponse where
  | transportError
  | payload (body : PyVal)

/-- Terminal failure statuses of the remote job. -/
def terminalFailureB (st : PyVal) : Bool :=
  pyEqb st (.str "CREATE_TASK_FAILED") || pyEqb st (.str "GENERATE_AUDIO_FAILED") ||
  pyEqb st (.str "CALLBACK_EXCEPTION") || pyEqb st (.str "SENSITIVE_WORD_ERROR")

/-- Message of the polling timeout error (lines 615-618). -/
def pollTimeoutMsg : String :=
  "Task did not complete within " ++ toString (MAX_POLLING_ATTEMPTS * POLLING_INTERVAL) ++
  " seconds. The task may still be processing - check back with the task_id later."

/-- Observable trace of one `_poll_for_completion` run: how many status
queries were made, total seconds spent in `time.sleep`, the progress
strings passed to `set_parameter_value("status", ...)` in order, and the
returned payload or raised exception. -/
structure PollOutcome where
  queries : Nat
  sleepSeconds : Nat
  statusUpdates : List String
  result : Except PyErr PyVal

/-- The polling loop from attempt index `i` with `fuel` attempts left
(`fuel + i = MAX_POLLING_ATTEMPTS` at the top-level call).  Each attempt
sleeps `POLLING_INTERVAL` seconds, then makes exactly one status query
`env i`.  A `RequestException` is swallowed and the loop moves on; an
envelope code other than 200 raises; `SUCCESS` returns the full payload;
a terminal failure status raises; anything else polls again.  Running
out of fuel raises the timeout error. -/
def pollAux (env : Nat → PollResponse) : Nat → Nat → PollOutcome
  | 0, _ =>
    { queries := 0, sleepSeconds := 0, statusUpdates := [],
      result := .error (.runtimeError pollTimeoutMsg) }
  | fuel + 1, i =>
    match env i with
    | .transportError =>
      let rest := pollAux env fuel (i + 1)
      { queries := rest.queries + 1, sleepSeconds := rest.sleepSeconds + POLLING_INTERVAL,
        statusUpdates := rest.statusUpdates, result := rest.result }
    | .payload body =>
      match body with
      | .dict kvs =>
        if !pyEqb (dGet kvs "code") (.int 200) then
          { queries := 1, sleepSeconds := POLLING_INTERVAL, statusUpdates := [],
            result := .error (.runtimeError
              ("API returned error: " ++ pyStr (dGetD kvs "msg" (.str "Unknown error")))) }
        else
          match dGetD kvs "data" (.dict []) with
          | .dict dkvs =>
            let task_status := dGetD dkvs "status" (.str "")
            let status_msg := "Status: " ++ pyStr task_status ++ " (" ++ toString (i + 1) ++
              "/" ++ toString MAX_POLLING_ATTEMPTS ++ ")"
            if pyEqb task_status (.str "SUCCESS") then
              { queries := 1, sleepSeconds := POLLING_INTERVAL, statusUpdates := [status_msg],
                result := .ok body }
            else if terminalFailureB task_status then
              { queries := 1, sleepSeconds := POLLING_INTERVAL, statusUpdates := [status_msg],
                result := .error (.runtimeError ("Generation failed: " ++
                  pyStr (dGetD dkvs "errorMessage"
                    (.str ("Task failed with status: " ++ pyStr task_status))))) }
            else
              let rest := pollAux env fuel (i + 1)
              { queries := rest.queries + 1,
                sleepSeconds := rest.sleepSeconds + POLLING_INTERVAL,
                statusUpdates := status_msg :: rest.statusUpdates, result := rest.result }
          | v =>
            { queries := 1, sleepSeconds := POLLING_INTERVAL, statusUpdates := [],
              result := .error (noGetAttrErr v) }
      | v =>
        { queries := 1, sleepSeconds := POLLING_INTERVAL, statusUpdates := [],
          result := .error (noGetAttrErr v) }

/-- `_poll_for_completion` over an environment assigning each attempt
index its query outcome. -/
def poll_for_completion (env : Nat → PollResponse) : PollOutcome :=
  pollAux env MAX_POLLING_ATTEMPTS 0

/-! ## Result extractor (`_extract_track_data`) -/

/-- Normalized track record built from one `sunoData` entry. -/
structure Track where
  audio_url : PyVal
  image_url : PyVal
  title : PyVal
  duration : PyVal
  tags : PyVal
  prompt : PyVal
  model_name : PyVal

/-- The track dict built for one `sunoData` entry (assuming the entry is
a dict of fields `kvs`). -/
def trackOfEntry (kvs : List (String × PyVal)) : Track :=
  { audio_url := dGet kvs "audioUrl"
    image_url := dGet kvs "imageUrl"
    title := dGet kvs "title"
    duration := dGet kvs "duration"
    tags := dGet kvs "tags"
    prompt := dGet kvs "prompt"
    model_name := dGet kvs "modelName" }

/-- The per-entry loop of `_extract_track_data`: builds a track per
entry, keeps it only when its audio URL is truthy, and raises an
`AttributeError` on a non-dict entry (`item.get` has no such attribute),
exactly as the Python `for` loop would. -/
def extractItems : List PyVal → Except PyErr (List Track)
  | [] => .ok []
  | item :: rest =>
    match item with
    | .dict kvs =>
      let track := trackOfEntry kvs
      match extractItems rest with
      | .error e => .error e
      | .ok ts => .ok (if track.audio_url.truthy then track :: ts else ts)
    | v => .error (noGetAttrErr v)

/-- `_extract_track_data`: walks `data` → `response` → `sunoData` with
an `isinstance` check at each level (wrong shape yields the empty list),
then runs the per-entry loop. -/
def extract_track_data (response_data : PyVal) : Except PyErr (List Track) :=
  match response_data with
  | .dict kvs =>
    match dGetD kvs "data" (.dict []) with
    | .dict dkvs =>
      match dGetD dkvs "response" (.dict []) with
      | .dict rkvs =>
        match dGetD rkvs "sunoData" (.list []) with
        | .list items => extractItems items
        | _ => .ok []
      | _ => .ok []
    | _ => .ok []
  | v => .error (noGetAttrErr v)

/-! ## Asset materializer (`_save_audio_from_url`, `_save_image_from_url`) -/

/-- An `AudioUrlArtifact`/`ImageUrlArtifact`: a wrapped URL value plus
the optional `name` keyword. -/
structure UrlArtifact where
  value : PyVal
  name : Option String

/-- Filename generated for the audio of track `track_index` at time
`now` (`int(time.time())`). -/
def audioFilename (track_index now : Nat) : String :=
  "suno_track" ++ toString track_index ++ "_" ++ toString now ++ ".mp3"

/-- Filename generated for the cover image at time `now`. -/
def coverFilename (now : Nat) : String :=
  "suno_cover_" ++ toString now ++ ".jpeg"

/-- Oracle for `_download_bytes_from_url`: `None` models any download
exception (the helper catches everything and returns `None`). -/
abbrev DownloadOracle := PyVal → Option (List Nat)

/-- Oracle for `StaticFilesManager.save_static_file`: `None` models the
call raising. -/
abbrev PersistOracle := List Nat → String → Option String

/-- `_save_audio_from_url`: on a failed or empty download, or a failed
save, fall back to an artifact wrapping the original URL; otherwise an
artifact with the persisted URL and the generated filename. -/
def save_audio_from_url (download : DownloadOracle) (persist : PersistOracle) (now : Nat)
    (audio_url : PyVal) (track_index : Nat) : UrlArtifact :=
  match download audio_url with
  | Option.none => { value := audio_url, name := Option.none }
  | some audio_bytes =>
    if audio_bytes.isEmpty then { value := audio_url, name := Option.none }
    else
      let filename := audioFilename track_index now
      match persist audio_bytes filename with
      | Option.none => { value := audio_url, name := Option.none }
      | some saved_url => { value := .str saved_url, name := some filename }

/-- `_save_image_from_url`, same shape as the audio variant. -/
def save_image_from_url (download : DownloadOracle) (persist : PersistOracle) (now : Nat)
    (image_url : PyVal) : UrlArtifact :=
  match download image_url with
  | Option.none => { value := image_url, name := Option.none }
  | some image_bytes =>
    if image_bytes.isEmpty then { value := image_url, name := Option.none }
    else
      let filename := coverFilename now
      match persist image_bytes filename with
      | Option.none => { value := image_url, name := Option.none }
      | some saved_url => { value := .str saved_url, name := some filename }

/-! ## Output assembly and `_process` -/

/-- The node's output slots (`parameter_output_values`). -/
structure Outputs where
  status : String
  task_id : PyVal
  audio_track_1 : Option UrlArtifact
  audio_track_2 : Option UrlArtifact
  cover_image : Option UrlArtifact
  generated_title : PyVal
  tags : PyVal
  lyrics : PyVal
  result_details : String

/-- `_set_safe_defaults`: the failure baseline of every output slot. -/
def set_safe_defaults : Outputs :=
  { status := "error"
    task_id := .none
    audio_track_1 := Option.none
    audio_track_2 := Option.none
    cover_image := Option.none
    generated_title := .str ""
    tags := .str ""
    lyrics := .str ""
    result_details := "Generation failed" }

/-- Per-track lines of the result summary (`for i, track in
enumerate(tracks, 1)`; a blank separator line after every track but the
last). -/
def trackDetailLines (total : Nat) : Nat → List Track → List String
  | _, [] => []
  | i, t :: ts =>
    ([toString i ++ ". Duration: " ++ pyStr t.duration ++ "s",
      "   Audio: " ++ pyStr t.audio_url] ++ (if i < total then [""] else [])) ++
    trackDetailLines total (i + 1) ts

/-- The result-summary lines of `_process` (lines 802-817).  Evaluating
the lyrics line takes `len` of the first track's raw `prompt` value,
which raises a `TypeError` when that value is `None`. -/
def buildResultLines (task_id : PyVal) (tracks : List Track) : Except PyErr (List String) :=
  match tracks with
  | [] => .error (.typeError "list index out of range")
  | t1 :: _ =>
    match pyLen t1.prompt with
    | .error e => .error e
    | .ok n =>
      let lyricsLine :=
        if n > 50 then "Lyrics: " ++ pyStr (pySliceTo t1.prompt 50) ++ "..."
        else "Lyrics: " ++ pyStr t1.prompt
      .ok (["✓ Generated " ++ toString tracks.length ++ " track variation(s)",
            "Title: " ++ pyStr t1.title,
            "Tags: " ++ pyStr t1.tags,
            lyricsLine,
            "Task ID: " ++ pyStr task_id,
            "Model: " ++ pyStr t1.model_name,
            "",
            "Track Details:"] ++ trackDetailLines tracks.length 1 tracks)

/-- Everything the outside world feeds one `_process` run: the secret
store's answer, the submission HTTP outcome, the polling outcomes, the
download and static-storage oracles, and the clock. -/
structure ProcessEnv where
  apiKey : Option String
  submitResponse : HttpResult
  pollEnv : Nat → PollResponse
  download : DownloadOracle
  persist : PersistOracle
  now : Nat

/-- `_validate_api_key`: a missing or empty secret is a `ValueError`. -/
def validate_api_key (apiKey : Option String) : Except PyErr String :=
  match apiKey with
  | Option.none => .error (.valueError "Missing SUNO_API_KEY. Please configure your Suno API key in Settings > Secrets.")
  | some k =>
    if k = "" then .error (.valueError "Missing SUNO_API_KEY. Please configure your Suno API key in Settings > Secrets.")
    else .ok k

/-- The `try` body of `_process`: runs the pipeline, threading the
output-slot record exactly as the Python statements mutate
`parameter_output_values`, and returns the final slots together with the
exception, if one was raised (at whatever point it was raised). -/
def tryBody (env : ProcessEnv) (out : Outputs) : Outputs × Option PyErr :=
  match validate_api_key env.apiKey with
  | .error e => (out, some e)
  | .ok _ =>
    match submit_task env.submitResponse with
    | .error e => (out, some e)
    | .ok submission =>
      match taskIdOf submission with
      | .error e => (out, some e)
      | .ok task_id =>
        let out := { out with task_id := task_id }
        match (poll_for_completion env.pollEnv).result with
        | .error e => (out, some e)
        | .ok completion =>
          match extract_track_data completion with
          | .error e => (out, some e)
          | .ok tracks =>
            match tracks with
            | [] => (out, some (.runtimeError "No tracks in completed response"))
            | track1 :: restTracks =>
              let audio1 := save_audio_from_url env.download env.persist env.now track1.audio_url 1
              let out := { out with audio_track_1 := some audio1 }
              let cover := save_image_from_url env.download env.persist env.now track1.image_url
              let out :=
                if track1.image_url.truthy then { out with cover_image := some cover }
                else out
              let out := { out with
                generated_title := pyOr track1.title (.str "Untitled")
                tags := pyOr track1.tags (.str "")
                lyrics := pyOr track1.prompt (.str "") }
              let out :=
                match restTracks with
                | [] => out
                | track2 :: _ =>
                  let audio2 := save_audio_from_url env.download env.persist env.now track2.audio_url 2
                  { out with audio_track_2 := some audio2 }
              let out := { out with status := "complete" }
              match buildResultLines task_id (track1 :: restTracks) with
              | .error e => (out, some e)
              | .ok lines =>
                ({ out with result_details := String.intercalate "\n" lines }, Option.none)

/-- `_process`: safe defaults first, then the `try` body; on any
exception the handler resets every slot to the baseline, overwrites the
summary with `"ERROR: "` plus the message, and re-raises a
`RuntimeError` prefixed with the node's name. -/
def process (name : String) (env : ProcessEnv) : Outputs × Except String Unit :=
  match tryBody env set_safe_defaults with
  | (out, Option.none) => (out, .ok ())
  | (_, some e) =>
    ({ set_safe_defaults with result_details := "ERROR: " ++ pyErrMsg e },
     .error (name ++ ": " ++ pyErrMsg e))

/-! ## Derived predicates and spec-side comparison functions -/

/-- Whether a value is a dict (Python `isinstance(v, dict)`). -/
def PyVal.isDict : PyVal → Bool
  | .dict _ => true
  | _ => false

/-- Whether a value is a list (Python `isinstance(v, list)`). -/
def PyVal.isList : PyVal → Bool
  | .list _ => true
  | _ => false

/-- A poll response on which the loop proceeds to the next attempt: a
swallowed `RequestException`, or a code-200 envelope whose `data.status`
is neither `SUCCESS` nor a terminal failure. -/
def continuesResp : PollResponse → Bool
  | .transportError => true
  | .payload (.dict kvs) =>
    pyEqb (dGet kvs "code") (.int 200) &&
    (match dGetD kvs "data" (.dict []) with
     | .dict dkvs =>
       let st := dGetD dkvs "status" (.str "")
       !pyEqb st (.str "SUCCESS") && !terminalFailureB st
     | _ => false)
  | .payload _ => false

/-- A code-200 envelope whose `data.status` is `SUCCESS`. -/
def successResp (v : PyVal) : Bool :=
  match v with
  | .dict kvs =>
    pyEqb (dGet kvs "code") (.int 200) &&
    (match dGetD kvs "data" (.dict []) with
     | .dict dkvs => pyEqb (dGetD dkvs "status" (.str "")) (.str "SUCCESS")
     | _ => false)
  | _ => false

/-- The (spec-side) payload entry a weight parameter should produce:
nothing when the parameter is unset, `0.0` (falsy in Python), or the
default `0.65`; otherwise the value rounded to 2 decimal places. -/
def weightEntry : Option Rat → Option PyVal
  | Option.none => Option.none
  | some q => if q = 0 ∨ q = 65/100 then Option.none else some (.rat (pyRound2 q))

/-- The (spec-side) per-entry result of the extractor loop: a track for
a dict entry with a truthy audio URL, nothing for a dict entry without
one. -/
def entryTrack? (item : PyVal) : Option Track :=
  match item with
  | .dict kvs =>
    let t := trackOfEntry kvs
    if t.audio_url.truthy then some t else Option.none
  | _ => Option.none

/-! ## Concrete fixtures used by witnesses and counterexamples -/

/-- A code-200 envelope with status `PENDING`. -/
def pendingPayload : PyVal :=
  .dict [("code", .int 200), ("data", .dict [("status", .str "PENDING")])]

/-- A code-200 envelope with status `SUCCESS` and an empty track list. -/
def successPayload : PyVal :=
  .dict [("code", .int 200), ("data", .dict [("status", .str "SUCCESS"),
    ("response", .dict [("sunoData", .list [])])])]

/-- Poll environment observing `[PENDING, PENDING, SUCCESS, SUCCESS, ...]`. -/
def envPPS : Nat → PollResponse := fun n =>
  if n < 2 then .payload pendingPayload else .payload successPayload

/-- Poll environment observing `PENDING` forever. -/
def envAllPending : Nat → PollResponse := fun _ => .payload pendingPayload

/-- Poll environment whose first query hits a transport error. -/
def envTE : Nat → PollResponse := fun n =>
  if n = 0 then .transportError else .payload successPayload

/-- Poll environment whose first query returns a code-500 envelope. -/
def envCode500 : Nat → PollResponse := fun _ =>
  .payload (.dict [("code", .int 500), ("msg", .str "rate limited")])

/-- Completion payload whose `sunoData` has one entry with an audio URL
and one without. -/
def twoEntryPayload : PyVal :=
  .dict [("data", .dict [("response", .dict [("sunoData", .list
    [.dict [("audioUrl", .str "http://a1"), ("title", .str "T1")],
     .dict [("title", .str "T2")]])])])]

/-- Completion payload whose `sunoData` contains a non-dict entry. -/
def badEntryPayload : PyVal :=
  .dict [("data", .dict [("response", .dict [("sunoData", .list [.int 1])])])]

/-- Parameters with the style weight explicitly set to `0.0`. -/
def pWeightZero : NodeParams :=
  { custom_mode := false, model := "V5", prompt := some "hi", style := Option.none,
    title := Option.none, instrumental := false, vocal_gender := some "auto",
    negative_tags := Option.none, style_weight := some 0,
    weirdness_constraint := Option.none, audio_weight := Option.none }

/-- Custom-mode parameters with a whitespace style and an unset title. -/
def pMissingStyleTitle : NodeParams :=
  { custom_mode := true, model := "V5", prompt := some "x", style := some "  ",
    title := Option.none, instrumental := false, vocal_gender := Option.none,
    negative_tags := Option.none, style_weight := Option.none,
    weirdness_constraint := Option.none, audio_weight := Option.none }

/-- Simple-mode parameters with a 501-character prompt. -/
def pLongPrompt : NodeParams :=
  { custom_mode := false, model := "V5", prompt := some (String.mk (List.replicate 501 'a')),
    style := Option.none, title := Option.none, instrumental := false,
    vocal_gender := Option.none, negative_tags := Option.none, style_weight := Option.none,
    weirdness_constraint := Option.none, audio_weight := Option.none }

/-- Process environment with the API key missing. -/
def envNoKey : ProcessEnv :=
  { apiKey := Option.none, submitResponse := .ok (.dict []),
    pollEnv := fun _ => .transportError, download := fun _ => Option.none,
    persist := fun _ _ => Option.none, now := 0 }

/-- SUCCESS completion payload whose only track has an audio URL but no
`prompt` field (an instrumental generation). -/
def promptlessSuccess : PyVal :=
  .dict [("code", .int 200), ("data", .dict [("status", .str "SUCCESS"),
    ("response", .dict [("sunoData", .list
      [.dict [("audioUrl", .str "http://audio"), ("title", .str "Song"),
              ("tags", .str "rock"), ("duration", .int 120),
              ("modelName", .str "V5")]])])])]

/-- Process environment that submits fine, polls to `promptlessSuccess`,
and downloads and persists every asset successfully. -/
def envPromptless : ProcessEnv :=
  { apiKey := some "k"
    submitResponse := .ok (.dict [("code", .int 200), ("data", .dict [("taskId", .str "abc123")])])
    pollEnv := fun _ => .payload promptlessSuccess
    download := fun _ => some [1, 2, 3]
    persist := fun _ f => some ("http://static/" ++ f)
    now := 7 }

/-! ## General lemmas about the poll loop -/

/-- Each polling attempt sleeps exactly one interval before its single
status query, so total sleep time is the interval times the query count. -/
theorem pollAux_sleepSeconds (env : Nat → PollResponse) :
    ∀ fuel i, (pollAux env fuel i).sleepSeconds = POLLING_INTERVAL * (pollAux env fuel i).queries := by
  intro fuel
  induction fuel with
  | zero => intro i; rfl
  | succ fuel ih =>
    intro i
    have step := ih (i + 1)
    simp only [POLLING_INTERVAL] at step
    cases h : env i with
    | transportError => simp only [pollAux, h, POLLING_INTERVAL]; omega
    | payload body =>
      cases body <;> (simp only [pollAux, h, POLLING_INTERVAL]; try rfl)
      split
      · rfl
      · split
        · split
          · rfl
          · split
            · rfl
            · simp only []; omega
        · rfl

/-- The loop makes at most `fuel` status queries. -/
theorem pollAux_queries_le (env : Nat → PollResponse) :
    ∀ fuel i, (pollAux env fuel i).queries ≤ fuel := by
  intro fuel
  induction fuel with
  | zero => intro i; exact Nat.le_refl 0
  | succ fuel ih =>
    intro i
    have step := ih (i + 1)
    cases h : env i with
    | transportError => simp only [pollAux, h]; omega
    | payload body =>
      cases body <;> simp only [pollAux, h] <;> try omega
      split
      · simp
      · split
        · split
          · simp
          · split
            · simp
            · simp only []; omega
        · simp

/-- When every query before attempt `i` lets the loop continue and the
query at attempt `i` is a SUCCESS envelope, the loop stops there: it has
then made one query per attempt and returns that payload. -/
theorem pollAux_first_success (env : Nat → PollResponse) :
    ∀ i fuel a v, (∀ j, j < i → continuesResp (env (a + j)) = true) → i < fuel →
      env (a + i) = .payload v → successResp v = true →
      (pollAux env fuel a).queries = i + 1 ∧ (pollAux env fuel a).result = .ok v := by
  intro i
  induction i with
  | zero =>
    intro fuel a v _ hfuel henv hs
    obtain ⟨fuel, rfl⟩ : ∃ f, fuel = f + 1 := ⟨fuel - 1, by omega⟩
    rw [Nat.add_zero] at henv
    cases v <;> simp [successResp] at hs
    rename_i kvs
    obtain ⟨hcode, hrest⟩ := hs
    cases hd : dGetD kvs "data" (.dict []) <;> (rw [hd] at hrest; simp at hrest)
    rename_i dkvs
    simp [pollAux, henv, hd, hcode, hrest]
  | succ i ih =>
    intro fuel a v hcont hfuel henv hs
    obtain ⟨fuel, rfl⟩ : ∃ f, fuel = f + 1 := ⟨fuel - 1, by omega⟩
    have h0 := hcont 0 (Nat.succ_pos i)
    rw [Nat.add_zero] at h0
    have hshift : ∀ j, j < i → continuesResp (env (a + 1 + j)) = true := by
      intro j hj
      have := hcont (j + 1) (by omega)
      rwa [show a + (j + 1) = a + 1 + j by omega] at this
    have henv' : env (a + 1 + i) = .payload v := by
      rwa [show a + 1 + i = a + (i + 1) by omega]
    have rest := ih fuel (a + 1) v hshift (by omega) henv' hs
    cases h : env a with
    | transportError =>
      simp only [pollAux, h]
      exact ⟨by rw [rest.1], rest.2⟩
    | payload body =>
      rw [h] at h0
      cases body <;> simp [continuesResp] at h0
      rename_i kvs
      obtain ⟨hcode, hrest0⟩ := h0
      cases hd : dGetD kvs "data" (.dict []) <;> (rw [hd] at hrest0; simp at hrest0)
      rename_i dkvs
      obtain ⟨hnsucc, hnterm⟩ := hrest0
      have r1 := rest.1
      simp [pollAux, h, hd, hcode, hnsucc, hnterm]
      exact ⟨by omega, rest.2⟩

/-! ## Claim theorems -/

/-- C1: `_poll_for_completion` sleeps one fixed 10-second interval
before each status query and makes exactly one query per attempt (total
sleep = 10 × queries, and at most 36 queries); it returns the full
status payload on the first observation whose `data.status` is
`SUCCESS`; on `[PENDING, PENDING, SUCCESS]` it makes exactly 3 queries
and returns the SUCCESS payload; on 36 consecutive non-terminal
observations it raises, after exactly 36 queries, the timeout error
noting the job may still be processing and can be checked later by task
id. -/
theorem poll_loop_contract :
    (∀ env, (poll_for_completion env).sleepSeconds =
      POLLING_INTERVAL * (poll_for_completion env).queries) ∧
    (∀ env, (poll_for_completion env).queries ≤ MAX_POLLING_ATTEMPTS) ∧
    (∀ env i v, (∀ j, j < i → continuesResp (env j) = true) → i < MAX_POLLING_ATTEMPTS →
      env i = .payload v → successResp v = true →
      (poll_for_completion env).queries = i + 1 ∧ (poll_for_completion env).result = .ok v) ∧
    (poll_for_completion envPPS).queries = 3 ∧
    (poll_for_completion envPPS).result = .ok successPayload ∧
    (poll_for_completion envAllPending).queries = 36 ∧
    (poll_for_completion envAllPending).result = .error (.runtimeError
      ("Task did not complete within 360 seconds. " ++
       "The task may still be processing - check back with the task_id later.")) := by
  refine ⟨fun env => pollAux_sleepSeconds env MAX_POLLING_ATTEMPTS 0,
          fun env => pollAux_queries_le env MAX_POLLING_ATTEMPTS 0,
          fun env i v hc hi he hs => ?_, rfl, rfl, rfl, rfl⟩
  have := pollAux_first_success env i MAX_POLLING_ATTEMPTS 0 v
    (by intro j hj; rw [Nat.zero_add]; exact hc j hj) hi (by rwa [Nat.zero_add]) hs
  exact this

/-- C1 witness: on the `[PENDING, PENDING, SUCCESS]` environment the
first-success conjunct applies at attempt index 2 and yields 3 queries
and the SUCCESS payload. -/
theorem poll_loop_contract_witness :
    (poll_for_completion envPPS).queries = 2 + 1 ∧
    (poll_for_completion envPPS).result = .ok successPayload :=
  poll_loop_contract.2.2.1 envPPS 2 successPayload
    (by decide) (by decide) (by rfl) (by rfl)

/-- C5: a `RequestException` on a polling attempt (transport-level or
HTTP-status error) is swallowed: the loop's result is exactly the result
of continuing with the next attempt (the error is not surfaced), with
one more query and one more sleep recorded and no extra progress
update. -/
theorem poll_transport_error_swallowed (env : Nat → PollResponse) (fuel i : Nat)
    (h : env i = .transportError) :
    (pollAux env (fuel + 1) i).result = (pollAux env fuel (i + 1)).result ∧
    (pollAux env (fuel + 1) i).queries = (pollAux env fuel (i + 1)).queries + 1 ∧
    (pollAux env (fuel + 1) i).sleepSeconds =
      (pollAux env fuel (i + 1)).sleepSeconds + POLLING_INTERVAL ∧
    (pollAux env (fuel + 1) i).statusUpdates = (pollAux env fuel (i + 1)).statusUpdates := by
  simp [pollAux, h]

/-- C5 witness: instance at an environment whose first poll query fails
at the transport level, with 35 attempts remaining after it. -/
theorem poll_transport_error_swallowed_witness :
    (pollAux envTE (35 + 1) 0).result = (pollAux envTE 35 (0 + 1)).result ∧
    (pollAux envTE (35 + 1) 0).queries = (pollAux envTE 35 (0 + 1)).queries + 1 ∧
    (pollAux envTE (35 + 1) 0).sleepSeconds =
      (pollAux envTE 35 (0 + 1)).sleepSeconds + POLLING_INTERVAL ∧
    (pollAux envTE (35 + 1) 0).statusUpdates = (pollAux envTE 35 (0 + 1)).statusUpdates :=
  poll_transport_error_swallowed envTE 35 0 (by rfl)

/-- C9: a poll response whose envelope `code` is not 200 is not treated
as a transient error: the loop raises immediately on that attempt with
`"API returned error: "` plus the envelope's `msg` (or the generic
fallback), making no further queries — while a transport-level
`RequestException` on the same query would be swallowed and polling
would continue. -/
theorem poll_envelope_error_raises (env : Nat → PollResponse) (fuel i : Nat)
    (kvs : List (String × PyVal)) (h : env i = .payload (.dict kvs))
    (hc : pyEqb (dGet kvs "code") (.int 200) = false) :
    pollAux env (fuel + 1) i =
      { queries := 1, sleepSeconds := POLLING_INTERVAL, statusUpdates := [],
        result := .error (.runtimeError
          ("API returned error: " ++ pyStr (dGetD kvs "msg" (.str "Unknown error")))) } ∧
    (∀ env' fuel' j, env' j = PollResponse.transportError →
      (pollAux env' (fuel' + 1) j).result = (pollAux env' fuel' (j + 1)).result) := by
  constructor
  · simp [pollAux, h, hc]
  · intro env' fuel' j h'
    simp only [pollAux, h']

/-- C9 witness: instance at an envelope with code 500 and message
`"rate limited"`. -/
theorem poll_envelope_error_raises_witness :
    pollAux envCode500 (35 + 1) 0 =
      { queries := 1, sleepSeconds := POLLING_INTERVAL, statusUpdates := [],
        result := .error (.runtimeError
          ("API returned error: " ++
            pyStr (dGetD [("code", .int 500), ("msg", .str "rate limited")] "msg"
              (.str "Unknown error")))) } ∧
    (∀ env' fuel' j, env' j = PollResponse.transportError →
      (pollAux env' (fuel' + 1) j).result = (pollAux env' fuel' (j + 1)).result) :=
  poll_envelope_error_raises envCode500 35 0
    [("code", .int 500), ("msg", .str "rate limited")] (by rfl) (by rfl)

/-- C2: whenever `_process` propagates an error, every output slot is at
the failure baseline — `status = "error"`, `task_id`/audio/cover absent,
title/tags/lyrics empty, `result_details` = `"ERROR: "` plus the error
message — and the propagated error is the message prefixed with the
node's name; no half-populated success state is visible. -/
theorem process_error_resets_outputs (name : String) (env : ProcessEnv) (m : String)
    (h : (process name env).2 = .error m) :
    ∃ emsg, m = name ++ ": " ++ emsg ∧
      (process name env).1.status = "error" ∧
      (process name env).1.task_id = PyVal.none ∧
      (process name env).1.audio_track_1 = Option.none ∧
      (process name env).1.audio_track_2 = Option.none ∧
      (process name env).1.cover_image = Option.none ∧
      (process name env).1.generated_title = PyVal.str "" ∧
      (process name env).1.tags = PyVal.str "" ∧
      (process name env).1.lyrics = PyVal.str "" ∧
      (process name env).1.result_details = "ERROR: " ++ emsg := by
  unfold process at h ⊢
  rcases htb : tryBody env set_safe_defaults with ⟨out, oe⟩
  cases oe with
  | none => rw [htb] at h; simp at h
  | some e =>
    rw [htb] at h
    simp only [Except.error.injEq] at h
    exact ⟨pyErrMsg e, h.symm, rfl, rfl, rfl, rfl, rfl, rfl, rfl, rfl, rfl⟩

/-- C2 witness: a run with the API key missing propagates the
configuration error and leaves every output at the baseline. -/
theorem process_error_resets_outputs_witness :
    ∃ emsg, ("Node: Missing SUNO_API_KEY. Please configure your Suno API key in Settings > Secrets."
        = "Node" ++ ": " ++ emsg) ∧
      (process "Node" envNoKey).1.status = "error" ∧
      (process "Node" envNoKey).1.task_id = PyVal.none ∧
      (process "Node" envNoKey).1.audio_track_1 = Option.none ∧
      (process "Node" envNoKey).1.audio_track_2 = Option.none ∧
      (process "Node" envNoKey).1.cover_image = Option.none ∧
      (process "Node" envNoKey).1.generated_title = PyVal.str "" ∧
      (process "Node" envNoKey).1.tags = PyVal.str "" ∧
      (process "Node" envNoKey).1.lyrics = PyVal.str "" ∧
      (process "Node" envNoKey).1.result_details = "ERROR: " ++ emsg :=
  process_error_resets_outputs "Node" envNoKey
    "Node: Missing SUNO_API_KEY. Please configure your Suno API key in Settings > Secrets."
    (by rfl)

/-- C10: on a SUCCESS payload whose only (valid) track lacks a `prompt`
field, extraction succeeds and the audio artifact is materialized, yet
`_process` raises while building the summary (it takes `len` of the
absent prompt), so the run is reported as a failure with every output
reset to the error baseline. -/
theorem process_promptless_track_crashes :
    extract_track_data promptlessSuccess =
      .ok [{ audio_url := .str "http://audio", image_url := .none, title := .str "Song",
             duration := .int 120, tags := .str "rock", prompt := .none,
             model_name := .str "V5" }] ∧
    save_audio_from_url envPromptless.download envPromptless.persist envPromptless.now
        (.str "http://audio") 1 =
      { value := .str "http://static/suno_track1_7.mp3", name := some "suno_track1_7.mp3" } ∧
    (process "Suno" envPromptless).2 =
      .error "Suno: object of type \x27NoneType\x27 has no len()" ∧
    (process "Suno" envPromptless).1 =
      { set_safe_defaults with
        result_details := "ERROR: object of type \x27NoneType\x27 has no len()" } := by
  exact ⟨rfl, rfl, rfl, rfl⟩

/-- C7: the asset savers never raise; when the download fails or yields
no bytes, or when persistence fails, the returned artifact wraps the
original remote URL unchanged; only when both download and persistence
succeed does it reference the persisted storage URL (and in every case
the value is one of those two). -/
theorem save_url_fallback (download : DownloadOracle) (persist : PersistOracle)
    (now : Nat) (url : PyVal) (idx : Nat) :
    (download url = Option.none →
      save_audio_from_url download persist now url idx = { value := url, name := Option.none } ∧
      save_image_from_url download persist now url = { value := url, name := Option.none }) ∧
    (∀ b, download url = some b → b.isEmpty = true →
      save_audio_from_url download persist now url idx = { value := url, name := Option.none } ∧
      save_image_from_url download persist now url = { value := url, name := Option.none }) ∧
    (∀ b, download url = some b → b.isEmpty = false →
      persist b (audioFilename idx now) = Option.none →
      save_audio_from_url download persist now url idx = { value := url, name := Option.none }) ∧
    (∀ b s, download url = some b → b.isEmpty = false →
      persist b (audioFilename idx now) = some s →
      save_audio_from_url download persist now url idx =
        { value := .str s, name := some (audioFilename idx now) }) ∧
    (∀ b, download url = some b → b.isEmpty = false →
      persist b (coverFilename now) = Option.none →
      save_image_from_url download persist now url = { value := url, name := Option.none }) ∧
    (∀ b s, download url = some b → b.isEmpty = false →
      persist b (coverFilename now) = some s →
      save_image_from_url download persist now url =
        { value := .str s, name := some (coverFilename now) }) ∧
    ((save_audio_from_url download persist now url idx).value = url ∨
      ∃ b s, download url = some b ∧ b.isEmpty = false ∧
        persist b (audioFilename idx now) = some s ∧
        (save_audio_from_url download persist now url idx).value = .str s) := by
  refine ⟨fun hd => ?_, fun b hd he => ?_, fun b hd he hp => ?_, fun b s hd he hp => ?_,
          fun b hd he hp => ?_, fun b s hd he hp => ?_, ?_⟩
  · constructor <;> simp [save_audio_from_url, save_image_from_url, hd]
  · constructor <;> simp [save_audio_from_url, save_image_from_url, hd, he]
  · simp [save_audio_from_url, hd, he, hp]
  · simp [save_audio_from_url, hd, he, hp]
  · simp [save_image_from_url, hd, he, hp]
  · simp [save_image_from_url, hd, he, hp]
  · cases hd : download url with
    | none => left; simp [save_audio_from_url, hd]
    | some b =>
      cases he : b.isEmpty
      · cases hp : persist b (audioFilename idx now) with
        | none => left; simp [save_audio_from_url, hd, he, hp]
        | some s =>
          right
          exact ⟨b, s, rfl, he, hp, by simp [save_audio_from_url, hd, he, hp]⟩
      · left; simp [save_audio_from_url, hd, he]

/-- C7 witness: instance where the download of `"http://u"` fails and
the artifact wraps the original URL. -/
theorem save_url_fallback_witness :
    (Option.none = (Option.none : Option (List Nat)) →
      save_audio_from_url (fun _ => Option.none) (fun _ _ => Option.none) 0 (.str "http://u") 1 =
        { value := .str "http://u", name := Option.none } ∧
      save_image_from_url (fun _ => Option.none) (fun _ _ => Option.none) 0 (.str "http://u") =
        { value := .str "http://u", name := Option.none }) ∧
    save_audio_from_url (fun _ => Option.none) (fun _ _ => Option.none) 0 (.str "http://u") 1 =
      { value := .str "http://u", name := Option.none } :=
  ⟨(save_url_fallback (fun _ => Option.none) (fun _ _ => Option.none) 0 (.str "http://u") 1).1,
   ((save_url_fallback (fun _ => Option.none) (fun _ _ => Option.none) 0 (.str "http://u") 1).1
      (by rfl)).1⟩

/-- C8: `_submit_task` raises exactly on a timeout (30-second budget),
transport failure, HTTP error status, or an envelope whose `code` is not
200; it returns the envelope otherwise.  On a successful envelope,
`_process` raises a fatal error when `data.taskId` is absent (falsy) and
otherwise takes the job identifier from the envelope's data field. -/
theorem submit_task_contract :
    (submit_task .timeout = .error (.runtimeError "Request timed out after 30 seconds")) ∧
    (∀ m, submit_task (.transportError m) =
      .error (.runtimeError ("Request failed: " ++ m))) ∧
    (∀ m, submit_task (.httpStatusError m) =
      .error (.runtimeError ("Request failed: " ++ m))) ∧
    (∀ kvs, pyEqb (dGet kvs "code") (.int 200) = false →
      submit_task (.ok (.dict kvs)) = .error (.runtimeError
        ("API returned error: " ++ pyStr (dGetD kvs "msg" (.str "Unknown error"))))) ∧
    (∀ kvs, pyEqb (dGet kvs "code") (.int 200) = true →
      submit_task (.ok (.dict kvs)) = .ok (.dict kvs)) ∧
    (∀ kvs dkvs, dGetD kvs "data" (.dict []) = .dict dkvs →
      (dGet dkvs "taskId").truthy = false →
      taskIdOf (.dict kvs) = .error (.runtimeError "No task ID returned from API")) ∧
    (∀ kvs dkvs s, dGetD kvs "data" (.dict []) = .dict dkvs →
      dGet dkvs "taskId" = .str s → s ≠ "" →
      taskIdOf (.dict kvs) = .ok (.str s)) := by
  refine ⟨rfl, fun m => rfl, fun m => rfl, fun kvs hc => ?_, fun kvs hc => ?_,
          fun kvs dkvs hd ht => ?_, fun kvs dkvs s hd ht hs => ?_⟩
  · simp [submit_task, hc]
  · simp [submit_task, hc]
  · simp [taskIdOf, hd, ht]
  · simp [taskIdOf, hd, ht, PyVal.truthy, hs]

/-- C8 witness: instances at a code-500 envelope and at envelopes with a
missing and a present task id. -/
theorem submit_task_contract_witness :
    (submit_task (.ok (.dict [("code", .int 500), ("msg", .str "bad request")])) =
      .error (.runtimeError ("API returned error: " ++
        pyStr (dGetD [("code", .int 500), ("msg", .str "bad request")] "msg"
          (.str "Unknown error"))))) ∧
    (taskIdOf (.dict [("code", .int 200), ("data", .dict [])]) =
      .error (.runtimeError "No task ID returned from API")) ∧
    (taskIdOf (.dict [("code", .int 200), ("data", .dict [("taskId", .str "abc123")])]) =
      .ok (.str "abc123")) :=
  ⟨submit_task_contract.2.2.2.1 [("code", .int 500), ("msg", .str "bad request")] (by rfl),
   submit_task_contract.2.2.2.2.2.1 [("code", .int 200), ("data", .dict [])] [] (by rfl) (by rfl),
   submit_task_contract.2.2.2.2.2.2 [("code", .int 200), ("data", .dict [("taskId", .str "abc123")])]
     [("taskId", .str "abc123")] "abc123" (by rfl) (by rfl) (by decide)⟩

/-! ## Lemmas about payload lookup -/

/-- Lookup distributes over payload concatenation. -/
theorem pyLookup_append (l₁ l₂ : List (String × PyVal)) (k : String) :
    pyLookup (l₁ ++ l₂) k = (pyLookup l₁ k).orElse fun _ => pyLookup l₂ k := by
  induction l₁ with
  | nil => rfl
  | cons hd tl ih =>
    rcases hd with ⟨k0, v⟩
    by_cases h : k0 = k <;> simp [pyLookup, h, ih, Option.orElse]

/-- orElse with an absent first branch. -/
theorem orElse_none_left {α : Type} (f : Unit → Option α) : (Option.none).orElse f = f () := rfl

/-- orElse with an absent second branch. -/
theorem orElse_none_right {α : Type} (x : Option α) :
    (x.orElse fun _ => Option.none) = x := by cases x <;> rfl

/-- The base block holds none of the optional keys. -/
theorem baseBlock_lookup_none (p : NodeParams) (k : String)
    (h1 : k ≠ "customMode") (h2 : k ≠ "instrumental") (h3 : k ≠ "model")
    (h4 : k ≠ "callBackUrl") : pyLookup (baseBlock p) k = Option.none := by
  simp [baseBlock, pyLookup, Ne.symm h1, Ne.symm h2, Ne.symm h3, Ne.symm h4]

/-- The prompt block only ever holds the key `prompt`. -/
theorem promptBlock_lookup_none (p : NodeParams) (k : String) (h : k ≠ "prompt") :
    pyLookup (promptBlock p) k = Option.none := by
  unfold promptBlock
  by_cases hc : pyStrip (pyOrEmpty p.prompt) ≠ "" <;> simp [hc, pyLookup, Ne.symm h]

/-- The custom block only ever holds the keys `style` and `title`. -/
theorem customBlock_lookup_none (p : NodeParams) (k : String)
    (h1 : k ≠ "style") (h2 : k ≠ "title") : pyLookup (customBlock p) k = Option.none := by
  unfold customBlock
  by_cases hm : p.custom_mode = true
  · by_cases hs : pyStrip (pyOrEmpty p.style) ≠ "" <;>
      by_cases ht : pyStrip (pyOrEmpty p.title) ≠ "" <;>
        simp [hm, hs, ht, pyLookup, pyLookup_append, Ne.symm h1, Ne.symm h2, Option.orElse]
  · simp [hm, pyLookup]

/-- The negative-tags block only ever holds the key `negativeTags`. -/
theorem negTagsBlock_lookup_none (p : NodeParams) (k : String) (h : k ≠ "negativeTags") :
    pyLookup (negTagsBlock p) k = Option.none := by
  unfold negTagsBlock
  by_cases hc : pyStrip (pyOrEmpty p.negative_tags) ≠ "" <;> simp [hc, pyLookup, Ne.symm h]

/-- The vocal-gender block only ever holds the key `vocalGender`. -/
theorem vocalBlock_lookup_none (p : NodeParams) (k : String) (h : k ≠ "vocalGender") :
    pyLookup (vocalBlock p) k = Option.none := by
  unfold vocalBlock
  cases p.vocal_gender with
  | none => rfl
  | some g =>
    by_cases hg : g ≠ "" ∧ g ≠ "auto" <;> simp [hg, pyLookup, Ne.symm h]

/-- A weight block holds no key other than its own. -/
theorem weightBlock_lookup_none (key : String) (w : Option Rat) (k : String) (h : key ≠ k) :
    pyLookup (weightBlock key w) k = Option.none := by
  cases w with
  | none => rfl
  | some q =>
    unfold weightBlock
    by_cases hq : q ≠ 0 ∧ q ≠ 65/100 <;> simp [hq, pyLookup, h]

/-- A weight block's own key maps exactly to the amended entry: absent
when the parameter is unset, `0.0` or `0.65`, the 2-decimal rounding
otherwise. -/
theorem weightBlock_lookup_self (key : String) (w : Option Rat) :
    pyLookup (weightBlock key w) key = weightEntry w := by
  cases w with
  | none => rfl
  | some q =>
    unfold weightBlock weightEntry
    by_cases h0 : q = 0
    · simp [h0, pyLookup]
    · by_cases h65 : q = 65/100 <;> simp [h0, h65, pyLookup]

/-- C3 counterexample: the claim says every weight value in `[0.0, 1.0]`
other than 0.65 is included in the payload, but a style weight of `0.0`
is falsy in Python and the key is omitted. -/
theorem style_weight_zero_omitted :
    pWeightZero.style_weight = some 0 ∧
    (0 : Rat) ≤ 0 ∧ (0 : Rat) ≤ 1 ∧ (0 : Rat) ≠ 65/100 ∧
    hasKey (build_payload pWeightZero) "styleWeight" = false := by
  refine ⟨rfl, le_refl 0, by norm_num, by norm_num, by rfl⟩

/-- C3 amended: `_build_payload` omits each weight key when the
parameter is unset, equals the default 0.65, or equals 0.0 (falsy in
Python's truthiness test); for every other value it includes the key
with the value rounded to 2 decimal places. -/
theorem weight_keys_payload (p : NodeParams) :
    pyLookup (build_payload p) "styleWeight" = weightEntry p.style_weight ∧
    pyLookup (build_payload p) "weirdnessConstraint" = weightEntry p.weirdness_constraint ∧
    pyLookup (build_payload p) "audioWeight" = weightEntry p.audio_weight := by
  refine ⟨?_, ?_, ?_⟩
  · simp only [build_payload, pyLookup_append,
      baseBlock_lookup_none p "styleWeight" (by decide) (by decide) (by decide) (by decide),
      promptBlock_lookup_none p "styleWeight" (by decide),
      customBlock_lookup_none p "styleWeight" (by decide) (by decide),
      negTagsBlock_lookup_none p "styleWeight" (by decide),
      vocalBlock_lookup_none p "styleWeight" (by decide),
      weightBlock_lookup_none "weirdnessConstraint" p.weirdness_constraint "styleWeight" (by decide),
      weightBlock_lookup_none "audioWeight" p.audio_weight "styleWeight" (by decide),
      weightBlock_lookup_self "styleWeight" p.style_weight,
      orElse_none_left, orElse_none_right]
  · simp only [build_payload, pyLookup_append,
      baseBlock_lookup_none p "weirdnessConstraint" (by decide) (by decide) (by decide) (by decide),
      promptBlock_lookup_none p "weirdnessConstraint" (by decide),
      customBlock_lookup_none p "weirdnessConstraint" (by decide) (by decide),
      negTagsBlock_lookup_none p "weirdnessConstraint" (by decide),
      vocalBlock_lookup_none p "weirdnessConstraint" (by decide),
      weightBlock_lookup_none "styleWeight" p.style_weight "weirdnessConstraint" (by decide),
      weightBlock_lookup_none "audioWeight" p.audio_weight "weirdnessConstraint" (by decide),
      weightBlock_lookup_self "weirdnessConstraint" p.weirdness_constraint,
      orElse_none_left, orElse_none_right]
  · simp only [build_payload, pyLookup_append,
      baseBlock_lookup_none p "audioWeight" (by decide) (by decide) (by decide) (by decide),
      promptBlock_lookup_none p "audioWeight" (by decide),
      customBlock_lookup_none p "audioWeight" (by decide) (by decide),
      negTagsBlock_lookup_none p "audioWeight" (by decide),
      vocalBlock_lookup_none p "audioWeight" (by decide),
      weightBlock_lookup_none "styleWeight" p.style_weight "audioWeight" (by decide),
      weightBlock_lookup_none "weirdnessConstraint" p.weirdness_constraint "audioWeight" (by decide),
      weightBlock_lookup_self "audioWeight" p.audio_weight,
      orElse_none_left, orElse_none_right]

/-! ## Lemmas about the result extractor -/

/-- When every `sunoData` entry is a dict, the per-entry loop returns,
in input order, exactly the entries with a truthy audio URL. -/
theorem extractItems_all_dicts (items : List PyVal)
    (h : ∀ item ∈ items, item.isDict = true) :
    extractItems items = .ok (items.filterMap entryTrack?) := by
  induction items with
  | nil => rfl
  | cons item rest ih =>
    have hitem := h item (List.mem_cons_self item rest)
    have hrest := ih fun x hx => h x (List.mem_cons_of_mem item hx)
    cases item <;> simp [PyVal.isDict] at hitem
    rename_i kvs
    simp only [extractItems, hrest]
    by_cases ht : (trackOfEntry kvs).audio_url.truthy <;>
      simp [entryTrack?, ht, List.filterMap_cons]

/-- C4 counterexample: the claim says `_extract_track_data` never
propagates a parse error on any malformed payload, but a `sunoData` list
containing a non-dict entry raises an `AttributeError` from
`item.get("audioUrl")`. -/
theorem extract_nondict_entry_raises :
    extract_track_data badEntryPayload =
      .error (.attributeError "\x27int\x27 object has no attribute \x27get\x27") := by
  rfl

/-- C4 amended: each of `data`, `data.response` and
`data.response.sunoData` being absent or not of the expected shape
yields the empty list; when every `sunoData` entry is a dict, no error
propagates, entries lacking an audio URL are dropped and the rest are
returned in input order (a non-dict entry inside `sunoData`, however,
raises).  The concrete one-with/one-without payload yields exactly one
track. -/
theorem extract_track_data_defensive :
    (∀ kvs, (dGetD kvs "data" (.dict [])).isDict = false →
      extract_track_data (.dict kvs) = .ok []) ∧
    (∀ kvs dkvs, dGetD kvs "data" (.dict []) = .dict dkvs →
      (dGetD dkvs "response" (.dict [])).isDict = false →
      extract_track_data (.dict kvs) = .ok []) ∧
    (∀ kvs dkvs rkvs, dGetD kvs "data" (.dict []) = .dict dkvs →
      dGetD dkvs "response" (.dict []) = .dict rkvs →
      (dGetD rkvs "sunoData" (.list [])).isList = false →
      extract_track_data (.dict kvs) = .ok []) ∧
    (∀ kvs dkvs rkvs items, dGetD kvs "data" (.dict []) = .dict dkvs →
      dGetD dkvs "response" (.dict []) = .dict rkvs →
      dGetD rkvs "sunoData" (.list []) = .list items →
      (∀ item ∈ items, item.isDict = true) →
      extract_track_data (.dict kvs) = .ok (items.filterMap entryTrack?)) ∧
    extract_track_data twoEntryPayload =
      .ok [{ audio_url := .str "http://a1", image_url := .none, title := .str "T1",
             duration := .none, tags := .none, prompt := .none, model_name := .none }] := by
  refine ⟨fun kvs h => ?_, fun kvs dkvs hd h => ?_, fun kvs dkvs rkvs hd hr h => ?_,
          fun kvs dkvs rkvs items hd hr hs hall => ?_, rfl⟩
  · simp only [extract_track_data]
    split
    · rename_i dkvs heq
      rw [heq] at h
      simp [PyVal.isDict] at h
    · rfl
  · simp only [extract_track_data, hd]
    split
    · rename_i rkvs heq
      rw [heq] at h
      simp [PyVal.isDict] at h
    · rfl
  · simp only [extract_track_data, hd, hr]
    split
    · rename_i items heq
      rw [heq] at h
      simp [PyVal.isList] at h
    · rfl
  · simp only [extract_track_data, hd, hr, hs]
    exact extractItems_all_dicts items hall

/-- C4 witness: the all-dict-entries conjunct applies to a singleton
`sunoData` with a valid entry. -/
theorem extract_track_data_defensive_witness :
    extract_track_data (.dict [("data", .dict [("response", .dict [("sunoData",
        .list [.dict [("audioUrl", .str "u")]])])])]) =
      .ok (List.filterMap entryTrack? [.dict [("audioUrl", .str "u")]]) :=
  extract_track_data_defensive.2.2.2.1
    [("data", .dict [("response", .dict [("sunoData", .list [.dict [("audioUrl", .str "u")]])])])]
    [("response", .dict [("sunoData", .list [.dict [("audioUrl", .str "u")]])])]
    [("sunoData", .list [.dict [("audioUrl", .str "u")]])]
    [.dict [("audioUrl", .str "u")]]
    (by rfl) (by rfl) (by rfl) (by decide)

/-! ## Lemmas about validation messages -/

/-- Two strings with different final characters differ. -/
theorem ne_of_getLast_ne {s t : String} (h : s.data.getLast? ≠ t.data.getLast?) : s ≠ t :=
  fun he => h (by rw [he])

/-- String append cancels on the left. -/
theorem append_ne_of_ne (a : String) {s t : String} (h : s ≠ t) : a ++ s ≠ a ++ t := by
  intro he
  apply h
  have hd : (a ++ s).data = (a ++ t).data := by rw [he]
  rw [String.data_append, String.data_append] at hd
  exact String.ext (List.append_cancel_left hd)

/-- The final character of an append whose suffix ends in `c`. -/
theorem getLast_append_of_suffix (a b : String) {c : Char} (h : b.data.getLast? = some c) :
    (a ++ b).data.getLast? = some c := by
  rw [String.data_append, List.getLast?_append, h]
  rfl

/-- The custom-mode prompt length message ends in a closing paren. -/
theorem promptLimitMsgCustom_getLast (name model : String) (L C : Nat) :
    (promptLimitMsgCustom name model L C).data.getLast? = some ')' := by
  unfold promptLimitMsgCustom
  exact getLast_append_of_suffix _ _ (by rfl)

/-- The style length message ends in a closing paren. -/
theorem styleLimitMsg_getLast (name model : String) (L C : Nat) :
    (styleLimitMsg name model L C).data.getLast? = some ')' := by
  unfold styleLimitMsg
  exact getLast_append_of_suffix _ _ (by rfl)

/-- The title length message ends in a closing paren. -/
theorem titleLimitMsg_getLast (name : String) (C : Nat) :
    (titleLimitMsg name C).data.getLast? = some ')' := by
  unfold titleLimitMsg
  exact getLast_append_of_suffix _ _ (by rfl)

/-- Occurrence count of a target message in a conditional singleton
block. -/
theorem count_if_block (c : Prop) [Decidable c] (m a : String) :
    ((if c then [m] else []) : List String).count a =
      if c then (if m = a then 1 else 0) else 0 := by
  by_cases hc : c <;> by_cases hm : m = a <;> simp [hc, hm, List.count_cons]

/-- C6: `validate_before_node_run` collects every violated rule rather
than stopping at the first: in custom mode it reports exactly one
style-required error when the trimmed style is blank (and none
otherwise) and, simultaneously, exactly one title-required error when
the trimmed title is blank; in simple mode a prompt longer than 500
characters always yields the length error referencing the 500-character
limit.  The validation function is a pure function of the parameter
values: it performs no network request. -/
theorem validate_reports_each_violation (name : String) (p : NodeParams) :
    (p.custom_mode = true →
      ((validate_before_node_run name p).count (name ++ ": Style is required in Custom Mode") =
        if pyStrip (pyOrEmpty p.style) = "" then 1 else 0) ∧
      ((validate_before_node_run name p).count (name ++ ": Title is required in Custom Mode") =
        if pyStrip (pyOrEmpty p.title) = "" then 1 else 0)) ∧
    (p.custom_mode = false → (pyOrEmpty p.prompt).length > PROMPT_LIMIT_SIMPLE →
      promptLimitMsgSimple name (pyOrEmpty p.prompt).length ∈
        validate_before_node_run name p) := by
  constructor
  · intro hm
    have hstyTit : (name ++ ": Title is required in Custom Mode") ≠
        (name ++ ": Style is required in Custom Mode") := append_ne_of_ne name (by decide)
    have hTitSty : (name ++ ": Style is required in Custom Mode") ≠
        (name ++ ": Title is required in Custom Mode") := append_ne_of_ne name (by decide)
    have hproSty : (name ++ ": Prompt/Lyrics required in Custom Mode when not instrumental") ≠
        (name ++ ": Style is required in Custom Mode") := append_ne_of_ne name (by decide)
    have hproTit : (name ++ ": Prompt/Lyrics required in Custom Mode when not instrumental") ≠
        (name ++ ": Title is required in Custom Mode") := append_ne_of_ne name (by decide)
    have hreqSty : (name ++ ": Style is required in Custom Mode").data.getLast? = some 'e' :=
      getLast_append_of_suffix _ _ (by rfl)
    have hreqTit : (name ++ ": Title is required in Custom Mode").data.getLast? = some 'e' :=
      getLast_append_of_suffix _ _ (by rfl)
    have hplSty : ∀ L C, promptLimitMsgCustom name p.model L C ≠
        (name ++ ": Style is required in Custom Mode") := fun L C =>
      ne_of_getLast_ne (by rw [promptLimitMsgCustom_getLast, hreqSty]; decide)
    have hplTit : ∀ L C, promptLimitMsgCustom name p.model L C ≠
        (name ++ ": Title is required in Custom Mode") := fun L C =>
      ne_of_getLast_ne (by rw [promptLimitMsgCustom_getLast, hreqTit]; decide)
    have hslSty : ∀ L C, styleLimitMsg name p.model L C ≠
        (name ++ ": Style is required in Custom Mode") := fun L C =>
      ne_of_getLast_ne (by rw [styleLimitMsg_getLast, hreqSty]; decide)
    have hslTit : ∀ L C, styleLimitMsg name p.model L C ≠
        (name ++ ": Title is required in Custom Mode") := fun L C =>
      ne_of_getLast_ne (by rw [styleLimitMsg_getLast, hreqTit]; decide)
    have htlSty : ∀ C, titleLimitMsg name C ≠
        (name ++ ": Style is required in Custom Mode") := fun C =>
      ne_of_getLast_ne (by rw [titleLimitMsg_getLast, hreqSty]; decide)
    have htlTit : ∀ C, titleLimitMsg name C ≠
        (name ++ ": Title is required in Custom Mode") := fun C =>
      ne_of_getLast_ne (by rw [titleLimitMsg_getLast, hreqTit]; decide)
    constructor <;>
      simp [validate_before_node_run, hm, List.count_append, count_if_block,
        hstyTit, hTitSty, hproSty, hproTit, hplSty, hplTit, hslSty, hslTit, htlSty, htlTit]
  · intro hm hlen
    simp [validate_before_node_run, hm, hlen]

set_option maxRecDepth 4000 in
/-- C6 witness: a custom-mode run with a whitespace style and an unset
title reports each missing field exactly once, and a 501-character
simple-mode prompt yields the 500-limit length error. -/
theorem validate_reports_each_violation_witness :
    ((validate_before_node_run "N" pMissingStyleTitle).count
        ("N" ++ ": Style is required in Custom Mode") =
      if pyStrip (pyOrEmpty pMissingStyleTitle.style) = "" then 1 else 0) ∧
    ((validate_before_node_run "N" pMissingStyleTitle).count
        ("N" ++ ": Title is required in Custom Mode") =
      if pyStrip (pyOrEmpty pMissingStyleTitle.title) = "" then 1 else 0) ∧
    (promptLimitMsgSimple "N" (pyOrEmpty pLongPrompt.prompt).length ∈
      validate_before_node_run "N" pLongPrompt) :=
  ⟨((validate_reports_each_violation "N" pMissingStyleTitle).1 rfl).1,
   ((validate_reports_each_violation "N" pMissingStyleTitle).1 rfl).2,
   (validate_reports_each_violation "N" pLongPrompt).2 rfl (by decide)⟩

end Suno
